import Mathlib

/-!
Shallow embedding of `src/src/rag/python-scripts/embedding_server.py`.

The server is a long-lived worker: a model registry (`load_model`), an
embedding call (`embed`), a request dispatcher (`handle_request`) and a
session loop (`run`) reading line-delimited JSON requests.  External
collaborators (the sentence-transformers library: model construction and
the batch `encode` call, and the JSON decoder `json.loads`) are modelled
as an explicit environment `Env`; a raised exception in an external call
is an `Except.error` carrying the exception message.  The registry state
(`self.model`, `self.current_model_name`) is threaded explicitly.
-/

namespace EmbServer

/-- An opaque loaded sentence-transformers model object
(`SentenceTransformer(model_name)` in the source). -/
structure STModel where
  tag : Nat
deriving DecidableEq, Repr

/-- A decoded request (one JSON object per line).  Fields are optional:
the source reads them with `request.get(...)` and supplies defaults. -/
structure Request where
  id : Option String := none
  action : Option String := none
  texts : Option (List String) := none
  model : Option String := none
deriving DecidableEq, Repr

/-- A response dict as built by the source.  `none` models an absent or
null field.  `traceback` is `true` when the source attaches
`traceback.format_exc()` (its content is runtime-dependent diagnostics). -/
structure Response where
  id : Option String := none
  success : Bool := false
  pong : Option Bool := none
  stAvailable : Option Bool := none
  embeddings : Option (List (List Float)) := none
  dimensions : Option Nat := none
  count : Option Nat := none
  shutdown : Option Bool := none
  error : Option String := none
  traceback : Bool := false
deriving Repr

/-- The mutable registry state of `EmbeddingServer`:
`self.model` and `self.current_model_name`. -/
structure ServerState where
  model : Option STModel := none
  current_model_name : Option String := none
deriving DecidableEq, Repr

/-- A value produced by a successful `json.loads` of an input line:
either a JSON object, decoded into a `Request` record, or a top-level
non-object value (number, array, string, null ...), recorded by its
Python type name.  The line `42` is valid JSON and decodes to `.other "int"`. -/
inductive PyValue where
  | obj (r : Request)
  | other (typeName : String)
deriving DecidableEq, Repr

/-- The external collaborators: `SENTENCE_TRANSFORMERS_AVAILABLE`,
`SentenceTransformer(name)` (may raise: `.error msg`), the loaded
model's batch `encode` call (may raise), and `json.loads`
(`.error` models `json.JSONDecodeError`). -/
structure Env where
  available : Bool
  construct : String → Except String STModel
  encode : STModel → List String → Except String (List (List Float))
  parse : String → Except String PyValue

/-- The source's built-in default model name. -/
def defaultModelName : String := "all-MiniLM-L6-v2"

/-- `EmbeddingServer.load_model` (source lines 51-68).  Returns the
boolean result together with the registry state after the call.
A constructor exception is caught and yields `false` with the state
unchanged (the assignment to `self.model` never executed). -/
def load_model (env : Env) (st : ServerState) (model_name : String) :
    Bool × ServerState :=
  if env.available = false then (false, st)
  else if st.model.isSome = true ∧ st.current_model_name = some model_name then
    (true, st)
  else
    match env.construct model_name with
    | .ok m => (true, { model := some m, current_model_name := some model_name })
    | .error _ => (false, st)

/-- `EmbeddingServer.embed` (source lines 70-83).  Raising is modelled
as returning `.error msg`; the registry state after the call is
returned alongside. -/
def embed (env : Env) (st : ServerState) (texts : List String)
    (model_name : String := defaultModelName) :
    Except String (List (List Float)) × ServerState :=
  if env.available = false then
    (.error "sentence-transformers not available", st)
  else
    match load_model env st model_name with
    | (false, st1) => (.error ("Failed to load model: " ++ model_name), st1)
    | (true, st1) =>
      match st1.model with
      | some m => (env.encode m texts, st1)
      | none => (.error "NoneType object has no attribute encode", st1)

/-- `len(embeddings[0]) if embeddings else 0` (source line 113). -/
def headDim : List (List Float) → Nat
  | [] => 0
  | v :: _ => v.length

/-- `EmbeddingServer.handle_request` (source lines 85-135): decode the
action, route to the handler, and convert any exception raised in the
`try` block into a failure response carrying the exception message. -/
def handle_request (env : Env) (st : ServerState) (req : Request) :
    Response × ServerState :=
  let request_id := req.id.getD "unknown"
  let action := req.action.getD "unknown"
  if action = "ping" then
    ({ id := some request_id, success := true, pong := some true,
       stAvailable := some env.available, error := none }, st)
  else if action = "embed" then
    let texts := req.texts.getD []
    let model := req.model.getD defaultModelName
    if texts = [] then
      ({ id := some request_id, success := false,
         error := some "No texts provided", traceback := true }, st)
    else
      match embed env st texts model with
      | (.ok embs, st1) =>
        ({ id := some request_id, success := true, embeddings := some embs,
           dimensions := some (headDim embs), count := some embs.length,
           error := none }, st1)
      | (.error e, st1) =>
        ({ id := some request_id, success := false, error := some e,
           traceback := true }, st1)
  else if action = "shutdown" then
    ({ id := some request_id, success := true, shutdown := some true,
       error := none }, st)
  else
    ({ id := some request_id, success := false,
       error := some ("Unknown action: " ++ action), traceback := true }, st)

/-- Python's `line.strip()` (source line 143): remove leading and
trailing whitespace, modelled over the string's character list. -/
def pyStrip (s : String) : String :=
  ⟨((s.data.dropWhile Char.isWhitespace).reverse.dropWhile Char.isWhitespace).reverse⟩

/-- `handle_request` as actually invoked on a decoded JSON value.
Source lines 87-88 (`request.get("id", ...)`, `request.get("action", ...)`)
run BEFORE the `try` block: on a non-dict value, `request.get` raises
`AttributeError`, which propagates past the function (`.error`); on a
dict, `dict.get` cannot raise and the `try` covers everything else, so
the call returns a response. -/
def handle_request_py (env : Env) (st : ServerState) :
    PyValue → Except String (Response × ServerState)
  | .obj r => .ok (handle_request env st r)
  | .other t =>
    .error ("AttributeError: " ++ t ++ " object has no attribute get")

/-- The best-effort response the loop emits on a JSON decode failure
(source lines 160-163): no `id` field. -/
def invalidJsonResponse (e : String) : Response :=
  { success := false, error := some ("Invalid JSON: " ++ e) }

/-- `EmbeddingServer.run` (source lines 137-164) on a finite input
stream: strip each line, skip blanks, decode, dispatch, emit, and stop
after a response carrying the `shutdown` flag.  A `json.JSONDecodeError`
yields a best-effort failure response and the loop continues; any other
exception escaping a dispatch (e.g. `AttributeError` on a non-dict
value) is caught only by the outer handler, so the loop stops with no
response for that line.  Returns the emitted responses in order and the
final registry state. -/
def run (env : Env) (st : ServerState) : List String → List Response × ServerState
  | [] => ([], st)
  | line :: rest =>
    let l := pyStrip line
    if l = "" then run env st rest
    else
      match env.parse l with
      | .error e =>
        let (rs, st1) := run env st rest
        (invalidJsonResponse e :: rs, st1)
      | .ok v =>
        match handle_request_py env st v with
        | .error _ => ([], st)
        | .ok (resp, st1) =>
          if resp.shutdown.getD false = true then ([resp], st1)
          else
            let (rs, st2) := run env st1 rest
            (resp :: rs, st2)

/-! ## Helper lemmas -/

/-- A successful `load_model` implies the library was available. -/
theorem load_model_true_available (env : Env) (st : ServerState) (name : String)
    (h : (load_model env st name).fst = true) : env.available = true := by
  unfold load_model at h
  by_cases hA : env.available = false
  · simp [hA] at h
  · simpa using hA

/-- After a successful `load_model`, the registry holds a model. -/
theorem load_model_true_isSome (env : Env) (st : ServerState) (name : String)
    (h : (load_model env st name).fst = true) :
    ((load_model env st name).snd).model.isSome = true := by
  unfold load_model at h ⊢
  by_cases hA : env.available = false
  · simp [hA] at h
  · by_cases hR : st.model.isSome = true ∧ st.current_model_name = some name
    · simp [hA, hR, hR.1]
    · simp only [hA, if_false, hR, if_neg, ite_false]
      cases hc : env.construct name with
      | ok m => simp [hA, hR, hc]
      | error e => simp [hA, hR, hc] at h

/-- With the library unavailable, `handle_request` never mutates the
registry (the `embed` path raises before reaching `load_model`); this is
why a state holding a loaded model entails availability. -/
theorem handle_request_unavailable_state_fixed (env : Env) (st : ServerState)
    (req : Request) (hA : env.available = false) :
    (handle_request env st req).snd = st := by
  unfold handle_request embed
  by_cases h1 : req.action.getD "unknown" = "ping"
  · simp [h1]
  · by_cases h2 : req.action.getD "unknown" = "embed"
    · by_cases h3 : req.texts.getD [] = []
      · simp [h1, h2, h3]
      · simp [h1, h2, h3, hA]
    · by_cases h4 : req.action.getD "unknown" = "shutdown"
      · simp [h1, h2, h4]
      · simp [h1, h2, h4]

/-! ## Claim theorems -/

/-- C4: whenever `load_model` fails — library unavailable, or the
`SentenceTransformer` constructor raised — it returns `false` without
raising, and the registry state (`self.model`, `self.current_model_name`)
is exactly what it was before the call; in particular the recorded
current-name changes only on a successful load. -/
theorem load_model_failure_leaves_state (env : Env) (st : ServerState)
    (name : String) (h : (load_model env st name).fst = false) :
    (load_model env st name).snd = st := by
  unfold load_model at h ⊢
  by_cases hA : env.available = false
  · simp [hA]
  · by_cases hR : st.model.isSome = true ∧ st.current_model_name = some name
    · simp [hA, hR] at h
    · cases hc : env.construct name with
      | ok m => simp [hA, hR, hc] at h
      | error e => simp [hA, hR, hc]

/-- C5: with the library available (the only situation in which a state
holding a loaded model arises, per
`handle_request_unavailable_state_fixed`), a registry that already holds
a model under `name` answers a `load_model name` with success and an
unchanged state, without invoking the constructor (the result is the
same for every constructor `g`); a `load_model` for a different name
`nname` whose construction succeeds replaces the current model and
records `nname`, and from the new state a further `load_model nname`
again reuses without constructing. -/
theorem load_model_reuse_and_replace (env : Env) (st : ServerState)
    (name nname : String) (m mnew : STModel)
    (havail : env.available = true)
    (hm : st.model = some m) (hn : st.current_model_name = some name)
    (hne : nname ≠ name) (hc : env.construct nname = .ok mnew) :
    (∀ g : String → Except String STModel,
      load_model { env with construct := g } st name = (true, st)) ∧
    load_model env st nname =
      (true, { model := some mnew, current_model_name := some nname }) ∧
    (∀ g : String → Except String STModel,
      load_model { env with construct := g }
        { model := some mnew, current_model_name := some nname } nname =
        (true, { model := some mnew, current_model_name := some nname })) := by
  refine ⟨?_, ?_, ?_⟩
  · intro g
    unfold load_model
    simp [havail, hm, hn]
  · unfold load_model
    simp [havail, hm, hn, Ne.symm hne, hc]
  · intro g
    unfold load_model
    simp [havail]

/-- When `load_model` succeeds, `embed` is exactly the model's batch
`encode` call, run in the post-load registry state. -/
theorem embed_eq_encode_of_load (env : Env) (st st1 : ServerState)
    (texts : List String) (name : String) (m : STModel)
    (hload : load_model env st name = (true, st1))
    (hm : st1.model = some m) :
    embed env st texts name = (env.encode m texts, st1) := by
  have hA : env.available = true :=
    load_model_true_available env st name (by rw [hload])
  unfold embed
  simp [hA, hload, hm]

/-- C7: an `embed` request whose `texts` field is absent or the empty
list fails validation (`success = false`, error "No texts provided")
before the embedding capability is consulted: the response and the
unchanged state are the same for every `encode` function `g`. -/
theorem embed_empty_texts_validation (env : Env) (st : ServerState)
    (req : Request) (hact : req.action = some "embed")
    (hts : req.texts = none ∨ req.texts = some []) :
    ∀ g : STModel → List String → Except String (List (List Float)),
      handle_request { env with encode := g } st req =
        ({ id := some (req.id.getD "unknown"), success := false,
           error := some "No texts provided", traceback := true }, st) := by
  intro g
  unfold handle_request
  rcases hts with h | h <;> simp [hact, h]

/-- C8: a request whose (defaulted) action is none of `embed`, `ping`,
`shutdown` — including a missing action, which defaults to the sentinel
`"unknown"` — yields `success = false` with an error naming the
offending action value, and leaves the registry unchanged. -/
theorem unknown_action_response (env : Env) (st : ServerState) (req : Request)
    (h1 : req.action.getD "unknown" ≠ "ping")
    (h2 : req.action.getD "unknown" ≠ "embed")
    (h3 : req.action.getD "unknown" ≠ "shutdown") :
    handle_request env st req =
      ({ id := some (req.id.getD "unknown"), success := false,
         error := some ("Unknown action: " ++ req.action.getD "unknown"),
         traceback := true }, st) := by
  unfold handle_request
  simp [h1, h2, h3]

/-- C9: a `ping` request always succeeds, echoes the request's `id`
(the sentinel when absent), reports library availability and the
liveness flag `pong`, and leaves the registry state untouched. -/
theorem ping_health_check (env : Env) (st : ServerState) (req : Request)
    (hact : req.action = some "ping") :
    handle_request env st req =
      ({ id := some (req.id.getD "unknown"), success := true,
         pong := some true, stAvailable := some env.available,
         error := none }, st) ∧
    ∀ s, req.id = some s → (handle_request env st req).fst.id = some s := by
  have h : handle_request env st req =
      ({ id := some (req.id.getD "unknown"), success := true,
         pong := some true, stAvailable := some env.available,
         error := none }, st) := by
    unfold handle_request
    simp [hact]
  refine ⟨h, fun s hs => ?_⟩
  rw [h]
  simp [hs]

/-- C1 (amended): for every decoded request value that is a JSON
object, the dispatcher returns a structured response without raising
past its boundary; the response carries the request's `id` (the
sentinel `"unknown"` when absent), and every failure response
(`success = false`) carries an error message.  (The amendment restricts
the claim to JSON objects: a decoded non-object value makes line 87
`request.get` raise `AttributeError` before the `try` block, see the
counterexample.) -/
theorem handle_request_obj_total (env : Env) (st : ServerState) (req : Request) :
    handle_request_py env st (.obj req) = .ok (handle_request env st req) ∧
    (handle_request env st req).fst.id = some (req.id.getD "unknown") ∧
    ((handle_request env st req).fst.success = false →
      ∃ e, (handle_request env st req).fst.error = some e) := by
  refine ⟨rfl, ?_⟩
  unfold handle_request
  by_cases h1 : req.action.getD "unknown" = "ping"
  · simp [h1]
  · by_cases h2 : req.action.getD "unknown" = "embed"
    · by_cases h3 : req.texts.getD [] = []
      · simp [h1, h2, h3]
      · simp only [h1, if_false, h2, if_true, h3, ite_false, if_neg]
        cases hemb : embed env st (req.texts.getD [])
            (req.model.getD defaultModelName) with
        | mk r st1 =>
          cases r with
          | ok embs => simp [hemb]
          | error e => simp [hemb]
    · by_cases h4 : req.action.getD "unknown" = "shutdown"
      · simp [h1, h2, h4]
      · simp [h1, h2, h4]

/-- C2: an `embed` request with non-empty `texts` of length n, a model
that loads successfully, and a model whose batch `encode` maps each
text to its vector of the model's dimensionality d, succeeds with
exactly the n vectors in input order (`texts.map f`, so vector i is the
image of `texts[i]`), `count = n`, and `dimensions = d`. -/
theorem embed_success_shape (env : Env) (st st1 : ServerState) (req : Request)
    (texts : List String) (m : STModel) (f : String → List Float) (d : Nat)
    (hact : req.action = some "embed")
    (htexts : req.texts = some texts) (hne : texts ≠ [])
    (hload : load_model env st (req.model.getD defaultModelName) = (true, st1))
    (hm : st1.model = some m)
    (henc : env.encode m texts = .ok (texts.map f))
    (hd : ∀ t ∈ texts, (f t).length = d) :
    (handle_request env st req).fst.success = true ∧
    (handle_request env st req).fst.embeddings = some (texts.map f) ∧
    ((handle_request env st req).fst.embeddings.getD []).length = texts.length ∧
    (handle_request env st req).fst.count = some texts.length ∧
    (handle_request env st req).fst.dimensions = some d ∧
    ∀ i : Nat, ((handle_request env st req).fst.embeddings.getD []).get? i =
      (texts.get? i).map f := by
  have hembed : embed env st texts (req.model.getD defaultModelName) =
      (.ok (texts.map f), st1) := by
    rw [embed_eq_encode_of_load env st st1 texts (req.model.getD defaultModelName)
      m hload hm, henc]
  have hresp : handle_request env st req =
      ({ id := some (req.id.getD "unknown"), success := true,
         embeddings := some (texts.map f),
         dimensions := some (headDim (texts.map f)),
         count := some (texts.map f).length, error := none }, st1) := by
    unfold handle_request
    simp [hact, htexts, hne, hembed]
  rw [hresp]
  obtain ⟨t0, ts0, rfl⟩ : ∃ t0 ts0, texts = t0 :: ts0 := by
    cases texts with
    | nil => exact absurd rfl hne
    | cons a l => exact ⟨a, l, rfl⟩
  refine ⟨rfl, rfl, by simp, by simp, ?_, ?_⟩
  · simp [headDim, hd t0 (List.mem_cons_self t0 ts0)]
  · intro i
    simp only [Option.getD_some, List.get?_eq_getElem?, List.getElem?_map]

/-- C10: a successful `embed` response's `dimensions` field is exactly
`len(embeddings[0]) if embeddings else 0` — the length of the first
vector the model returned (0 for an empty vector list), with no check
that the remaining vectors share that length: the result is stated for
an arbitrary vector list `embs`, ragged ones included. -/
theorem embed_dimensions_from_first_vector (env : Env) (st st1 : ServerState)
    (req : Request) (texts : List String) (embs : List (List Float))
    (hact : req.action = some "embed")
    (htexts : req.texts = some texts) (hne : texts ≠ [])
    (hembed : embed env st texts (req.model.getD defaultModelName) =
      (.ok embs, st1)) :
    (handle_request env st req).fst.success = true ∧
    (handle_request env st req).fst.dimensions = some (headDim embs) ∧
    (handle_request env st req).fst.embeddings = some embs := by
  unfold handle_request
  simp [hact, htexts, hne, hembed]

/-- C3: a `shutdown` request is answered with `success = true` and the
`shutdown` flag, and the session loop stops right after emitting that
response: the loop's output on `line :: rest` is that single response,
whatever `rest` holds — no further lines are read or processed. -/
theorem shutdown_stops_loop (env : Env) (st : ServerState) (req : Request)
    (line : String) (rest : List String)
    (hline : pyStrip line ≠ "")
    (hparse : env.parse (pyStrip line) = .ok (.obj req))
    (hact : req.action = some "shutdown") :
    (handle_request env st req).fst.success = true ∧
    (handle_request env st req).fst.shutdown = some true ∧
    run env st (line :: rest) =
      ([(handle_request env st req).fst], (handle_request env st req).snd) := by
  have hresp : handle_request env st req =
      ({ id := some (req.id.getD "unknown"), success := true,
         shutdown := some true, error := none }, st) := by
    unfold handle_request
    simp [hact]
  refine ⟨by rw [hresp], by rw [hresp], ?_⟩
  simp [run, hline, hparse, handle_request_py, hresp]

/-- C6: a non-blank line that fails JSON decoding makes the loop emit a
failure response that carries no `id`, and the loop continues: its
remaining output and final state are exactly those of running the rest
of the input from the unchanged state, so a subsequent valid line is
still decoded, dispatched and answered as usual. -/
theorem malformed_line_nonfatal (env : Env) (st : ServerState)
    (line : String) (rest : List String) (e : String)
    (hline : pyStrip line ≠ "")
    (hparse : env.parse (pyStrip line) = .error e) :
    (invalidJsonResponse e).id = none ∧
    (invalidJsonResponse e).success = false ∧
    (invalidJsonResponse e).error = some ("Invalid JSON: " ++ e) ∧
    run env st (line :: rest) =
      (invalidJsonResponse e :: (run env st rest).fst, (run env st rest).snd) := by
  refine ⟨rfl, rfl, rfl, ?_⟩
  simp [run, hline, hparse]

/-! ## Concrete fixtures for witnesses and counterexamples -/

/-- A concrete loaded-model object. -/
def stubModel : STModel := ⟨0⟩

/-- A model behaviour producing the same 4-dimensional vector for every
text. -/
def stubF : String → List Float := fun _ => [0, 0, 0, 0]

/-- The message `json.loads` reports on a non-JSON line. -/
def decodeErr : String := "Expecting value: line 1 column 1 (char 0)"

/-- An encode function that always raises, marking paths where the
embedding capability must not be consulted. -/
def noEncode : STModel → List String → Except String (List (List Float)) :=
  fun _ _ => .error "never"

/-- An environment with the library available, a constructor that
always succeeds, a well-behaved 4-dimensional model, and a JSON decoder
that rejects every line. -/
def stubEnv : Env where
  available := true
  construct := fun _ => .ok stubModel
  encode := fun _ ts => .ok (ts.map stubF)
  parse := fun _ => .error decodeErr

/-- An environment in which sentence-transformers failed to import. -/
def offEnv : Env where
  available := false
  construct := fun _ => .error "sentence-transformers not available"
  encode := noEncode
  parse := fun _ => .error decodeErr

/-- A concrete shutdown request. -/
def shutdownReq : Request := { id := some "9", action := some "shutdown" }

/-- An environment whose decoder parses every line to `shutdownReq`. -/
def shutdownEnv : Env where
  available := true
  construct := fun _ => .ok stubModel
  encode := fun _ ts => .ok (ts.map stubF)
  parse := fun _ => .ok (.obj shutdownReq)

/-- An environment whose model returns a ragged vector list: a
2-dimensional first vector and a 3-dimensional second one. -/
def raggedEnv : Env where
  available := true
  construct := fun _ => .ok stubModel
  encode := fun _ _ => .ok [[0, 0], [0, 0, 0]]
  parse := fun _ => .error decodeErr

/-- The registry state after loading `"m"` in `stubEnv`. -/
def loadedStM : ServerState :=
  { model := some stubModel, current_model_name := some "m" }

/-- The registry state after loading `"n"` in `stubEnv`. -/
def loadedStN : ServerState :=
  { model := some stubModel, current_model_name := some "n" }

/-- A concrete embed request over two texts. -/
def embedReq : Request :=
  { id := some "1", action := some "embed",
    texts := some ["hello", "world"], model := some "m" }

/-- A concrete embed request with the `texts` field absent. -/
def emptyTextsReq : Request := { id := some "7", action := some "embed" }

/-- A concrete request with an unrecognized action. -/
def unknownReq : Request := { id := some "2", action := some "frobnicate" }

/-- A concrete ping request. -/
def pingReq : Request := { id := some "3", action := some "ping" }

/-- A concrete embed request used with the ragged model. -/
def raggedReq : Request :=
  { id := some "4", action := some "embed",
    texts := some ["a", "b"], model := some "m" }

/-! ## Counterexample and witnesses -/

/-- C1 counterexample: the input line `42` is valid JSON, so the decode
step succeeds and hands the dispatcher the Python int `42` — not a
dict.  Line 87 `request.get("id", "unknown")` then raises
`AttributeError` before the `try` block, so `handle_request` produces
no structured response and the exception propagates past the
dispatcher's boundary, refuting the claim as stated over all decoded
request values. -/
theorem handle_request_nondict_raises :
    handle_request_py stubEnv {} (.other "int") =
      .error "AttributeError: int object has no attribute get" := rfl

/-- Witness for C2 at `embedReq` in `stubEnv`: two texts, one
4-dimensional vector each, `count = 2`, `dimensions = 4`. -/
theorem embed_success_shape_witness :
    (handle_request stubEnv {} embedReq).fst.success = true ∧
    (handle_request stubEnv {} embedReq).fst.embeddings =
      some (["hello", "world"].map stubF) ∧
    ((handle_request stubEnv {} embedReq).fst.embeddings.getD []).length = 2 ∧
    (handle_request stubEnv {} embedReq).fst.count = some 2 ∧
    (handle_request stubEnv {} embedReq).fst.dimensions = some 4 :=
  have h := embed_success_shape stubEnv {} loadedStM embedReq ["hello", "world"]
    stubModel stubF 4 rfl rfl (by decide) rfl rfl rfl (fun _ _ => rfl)
  ⟨h.1, h.2.1, h.2.2.1, h.2.2.2.1, h.2.2.2.2.1⟩

/-- Witness for C3: a line decoding to `shutdownReq` answers with the
shutdown flag and stops the loop even though another line follows. -/
theorem shutdown_stops_loop_witness :
    (handle_request shutdownEnv {} shutdownReq).fst.success = true ∧
    (handle_request shutdownEnv {} shutdownReq).fst.shutdown = some true ∧
    run shutdownEnv {} ["x", "y"] =
      ([(handle_request shutdownEnv {} shutdownReq).fst],
       (handle_request shutdownEnv {} shutdownReq).snd) :=
  shutdown_stops_loop shutdownEnv {} shutdownReq "x" ["y"] (by decide) rfl rfl

/-- Witness for C4: with the library unavailable, `load_model` fails
and leaves the empty registry state untouched. -/
theorem load_model_failure_leaves_state_witness :
    (load_model offEnv {} "m").fst = false ∧
    (load_model offEnv {} "m").snd = ({} : ServerState) :=
  ⟨by decide, load_model_failure_leaves_state offEnv {} "m" (by decide)⟩

/-- Witness for C5: with `"m"` loaded, reloading `"m"` succeeds with an
unchanged state even under a constructor that always fails; loading
`"n"` replaces the model; reloading `"n"` afterwards again bypasses the
constructor. -/
theorem load_model_reuse_and_replace_witness :
    load_model { stubEnv with construct := fun _ => .error "never" }
      loadedStM "m" = (true, loadedStM) ∧
    load_model stubEnv loadedStM "n" = (true, loadedStN) ∧
    load_model { stubEnv with construct := fun _ => .error "never" }
      loadedStN "n" = (true, loadedStN) :=
  have h := load_model_reuse_and_replace stubEnv loadedStM "m" "n"
    stubModel stubModel rfl rfl rfl (by decide) rfl
  ⟨h.1 _, h.2.1, h.2.2 _⟩

/-- Witness for C6: the non-JSON line "not json" yields the id-less
failure response and the loop goes on to the rest of the input. -/
theorem malformed_line_nonfatal_witness :
    (invalidJsonResponse decodeErr).id = none ∧
    (invalidJsonResponse decodeErr).success = false ∧
    (invalidJsonResponse decodeErr).error =
      some ("Invalid JSON: " ++ decodeErr) ∧
    run stubEnv {} ["not json"] =
      (invalidJsonResponse decodeErr :: (run stubEnv {} []).fst,
       (run stubEnv {} []).snd) :=
  malformed_line_nonfatal stubEnv {} "not json" [] decodeErr (by decide) rfl

/-- Witness for C7: an embed request without `texts` fails validation
with the unchanged state, under an encode function that would raise if
consulted. -/
theorem embed_empty_texts_validation_witness :
    handle_request { stubEnv with encode := noEncode } {} emptyTextsReq =
      ({ id := some "7", success := false,
         error := some "No texts provided", traceback := true },
       ({} : ServerState)) :=
  embed_empty_texts_validation stubEnv {} emptyTextsReq rfl (Or.inl rfl) noEncode

/-- Witness for C8: the action "frobnicate" is rejected with an error
naming it. -/
theorem unknown_action_response_witness :
    handle_request stubEnv {} unknownReq =
      ({ id := some "2", success := false,
         error := some ("Unknown action: " ++ "frobnicate"),
         traceback := true }, ({} : ServerState)) :=
  unknown_action_response stubEnv {} unknownReq (by decide) (by decide) (by decide)

/-- Witness for C9: a ping with id "3" answers success, echoing the id
and reporting availability, with the state unchanged. -/
theorem ping_health_check_witness :
    handle_request stubEnv {} pingReq =
      ({ id := some "3", success := true, pong := some true,
         stAvailable := some true, error := none }, ({} : ServerState)) ∧
    (handle_request stubEnv {} pingReq).fst.id = some "3" :=
  ⟨(ping_health_check stubEnv {} pingReq rfl).1,
   (ping_health_check stubEnv {} pingReq rfl).2 "3" rfl⟩

/-- Witness for C10 at a ragged model output: the response still
succeeds and reports `dimensions = 2`, the length of the first vector,
although the second vector has length 3. -/
theorem embed_dimensions_from_first_vector_witness :
    (handle_request raggedEnv {} raggedReq).fst.success = true ∧
    (handle_request raggedEnv {} raggedReq).fst.dimensions = some 2 ∧
    (handle_request raggedEnv {} raggedReq).fst.embeddings =
      some [[0, 0], [0, 0, 0]] :=
  embed_dimensions_from_first_vector raggedEnv {} loadedStM raggedReq
    ["a", "b"] [[0, 0], [0, 0, 0]] rfl rfl (by decide) rfl

end EmbServer
